import Mathlib

set_option autoImplicit false

/-!
Shallow embedding of the child-process lifecycle manager of the Oasys
repository (namespace sys in src/main.cpp: run, kill, quit, wait for
the POSIX backend and for the Windows backend), together with theorems
settling the frozen claims about it.
-/

namespace Oasys

/-! ## The POSIX wait status decode (src/main.cpp lines 529..559) -/

/-- View of one raw waitpid status value through the platform macros
WIFEXITED, WEXITSTATUS, WIFSTOPPED, WSTOPSIG, WIFSIGNALED and WTERMSIG.
The code observes a status only through these macros and through the
raw integer itself, so a status value is embedded as the tuple of
exactly those observations. -/
structure WaitStatus where
  ifexited : Bool
  exitstatus : Int
  ifstopped : Bool
  stopsig : Int
  ifsignaled : Bool
  termsig : Int
  raw : Int
  deriving DecidableEq

/-- The decoding tail of sys::wait on the POSIX backend (src/main.cpp
543..558): WIFEXITED gives WEXITSTATUS, else WIFSTOPPED gives WSTOPSIG,
else WIFSIGNALED gives WTERMSIG, else the raw status is returned
unchanged (the line the source marks unreachable). The codomain is a
plain Int because the C function returns int. -/
def wait_decode (s : WaitStatus) : Int :=
  if s.ifexited then s.exitstatus
  else if s.ifstopped then s.stopsig
  else if s.ifsignaled then s.termsig
  else s.raw

/-- Result of one waitpid call as the code observes it: the returned
pid and the status it stored. The errno field carries the error cause
of a failed call; the code never reads errno, the field exists so that
claims about transient interruption can be stated. -/
structure WaitCall where
  ret : Int
  status : WaitStatus
  errno : Int
  deriving DecidableEq

/-- Linux errno value for an interrupted syscall. -/
def EINTR : Int := 4

/-- Linux errno value for waiting on a nonexistent child. -/
def ECHILD : Int := 10

/-- The waitpid retry loop of sys::wait on the POSIX backend
(src/main.cpp 531..541): do pid = waitpid(parent, status, 0), log on
failure, repeat while pid differs from parent. The argument lists the
successive results the OS hands back; the loop consumes them in order
and stops at the first whose pid equals parent, returning its status
and the number of waitpid calls made. It returns none when the finite
trace runs out, meaning the real loop would still be spinning. -/
def wait_loop (parent : Int) : List WaitCall → Option (WaitStatus × Nat)
  | [] => none
  | c :: t =>
    if c.ret = parent then some (c.status, 1)
    else
      match wait_loop parent t with
      | some p => some (p.1, p.2 + 1)
      | none => none

/-- Full sys::wait on the POSIX backend: run the retry loop, then
decode the status of the reaped child. -/
def wait_posix (parent : Int) (trace : List WaitCall) : Option Int :=
  (wait_loop parent trace).map fun p => wait_decode p.1

/-! ## Signaling: sys::kill and sys::quit (src/main.cpp 461..503) -/

/-- One entry in the diagnostic log written through sys::err or
sys::warn; the code reports every failure through this channel only.
Each constructor names one call site. -/
inductive LogMsg where
  | errSigterm
  | errSigint
  | errFork
  | errWaitpid
  | warnOpenProcess
  | errTerminateProcess
  | errWaitForSingleObject
  | errGetExitCode
  | errCreateProcess
  | errSetHandleInformation
  | warnMsgQuit
  deriving DecidableEq

/-- Linux signal number of SIGINT from signal.h. -/
def SIGINT : Int := 2

/-- Linux signal number of SIGTERM from signal.h. -/
def SIGTERM : Int := 15

/-- Kernel acceptance of signal delivery: whether the syscall
::kill(pid, sig) succeeds. It is false when the process has already
exited or the identifier is invalid (ESRCH). -/
def SigEnv : Type := Int → Int → Bool

/-- Observable outcome of the void functions sys::kill and sys::quit
on the POSIX backend: the signal-delivery syscalls attempted as
(pid, signal) pairs, the diagnostics logged, and the value returned to
the caller. The C functions are declared void, so the returned value
is the unit value. -/
structure SigObs where
  sent : List (Int × Int)
  logs : List LogMsg
  ret : Unit
  deriving DecidableEq

/-- sys::kill on the POSIX backend (src/main.cpp 476..483): one call
::kill(pid, SIGTERM); when it fails the error is logged and nothing
else happens. -/
def kill (env : SigEnv) (pid : Int) : SigObs :=
  ⟨[(pid, SIGTERM)], if env pid SIGTERM then [] else [LogMsg.errSigterm], ()⟩

/-- sys::quit on the POSIX backend (src/main.cpp 495..502): one call
::kill(pid, SIGINT); when it fails the error is logged and nothing
else happens. -/
def quit (env : SigEnv) (pid : Int) : SigObs :=
  ⟨[(pid, SIGINT)], if env pid SIGINT then [] else [LogMsg.errSigint], ()⟩

/-- Environment of sys::kill on the Windows backend: whether the
process handle opens from the stored pid, and whether
TerminateProcess succeeds. -/
structure WinSigEnv where
  openOk : Bool
  termOk : Bool
  deriving DecidableEq

/-- Observable outcome of the void function sys::kill on the Windows
backend: the TerminateProcess requests issued as (pid, exit code)
pairs, the diagnostics logged, and the unit value handed back. -/
structure WinKillObs where
  terminated : List (Int × Int)
  logs : List LogMsg
  ret : Unit
  deriving DecidableEq

/-- sys::kill on the Windows backend (src/main.cpp 463..475): open a
process handle from the pid (warn and stop when that fails), then
request TerminateProcess(h, 0); a TerminateProcess failure is logged.
The handle wrapper sys::win::process is declared in a header outside
src/. Modelled from the spec: failure to locate the handle is
reported, not thrown as fatal. -/
def win_kill (e : WinSigEnv) (pid : Int) : WinKillObs :=
  if e.openOk = false then ⟨[], [LogMsg.warnOpenProcess], ()⟩
  else if e.termOk then ⟨[(pid, 0)], [], ()⟩
  else ⟨[(pid, 0)], [LogMsg.errTerminateProcess], ()⟩

/-! ## sys::wait on the Windows backend (src/main.cpp 507..527) -/

/-- sys::invalid, the invalid-value sentinel compared against
throughout the code base. Modelled from the spec: it is declared in a
header outside src/; the claims name its value as -1. -/
def invalid : Int := -1

/-- static_cast to DWORD: reduce an int to its 32-bit unsigned
representative. -/
def intToDword (i : Int) : Nat := (i % (2 ^ 32)).toNat

/-- static_cast to int: reinterpret a 32-bit unsigned DWORD as a
two-complement signed int. -/
def dwordToInt (c : Nat) : Int :=
  if c % (2 ^ 32) < 2 ^ 31 then ((c % (2 ^ 32) : Nat) : Int)
  else ((c % (2 ^ 32) : Nat) : Int) - 2 ^ 32

/-- Environment of sys::wait on the Windows backend: whether the
process handle opens from the stored pid, whether WaitForSingleObject
succeeds, whether GetExitCodeProcess succeeds, and the DWORD exit code
the OS reports when it does. -/
structure WinWaitEnv where
  openOk : Bool
  waitOk : Bool
  codeOk : Bool
  exitcode : Nat
  deriving DecidableEq

/-- Observable outcome of sys::wait on the Windows backend: the int
returned to the caller, whether the blocking WaitForSingleObject call
was reached, and the diagnostics logged. -/
structure WinWaitObs where
  result : Int
  waited : Bool
  logs : List LogMsg
  deriving DecidableEq

/-- sys::wait on the Windows backend (src/main.cpp 507..527): code
starts as static_cast of sys::invalid to DWORD; when the handle does
not open, warn and return immediately; otherwise block on
WaitForSingleObject and then query GetExitCodeProcess into code,
logging either failure; finally return code cast back to int. The
handle wrapper sys::win::process is declared in a header outside src/.
Modelled from the spec: a stale identifier simply fails to open. -/
def win_wait (e : WinWaitEnv) : WinWaitObs :=
  if e.openOk = false then
    ⟨dwordToInt (intToDword invalid), false, [LogMsg.warnOpenProcess]⟩
  else if e.waitOk = false then
    ⟨dwordToInt (intToDword invalid), true, [LogMsg.errWaitForSingleObject]⟩
  else if e.codeOk = false then
    ⟨dwordToInt (intToDword invalid), true, [LogMsg.errGetExitCode]⟩
  else
    ⟨dwordToInt (e.exitcode % (2 ^ 32)), true, []⟩

/-! ## Pipe-endpoint accounting for sys::run (src/main.cpp 336..459) -/

/-- One pipe endpoint: the pipe index 0 (stdin), 1 (stdout) or
2 (stderr), and which end — false is the read end, true is the
write end. -/
abbrev PipeEnd := Fin 3 × Bool

/-- Ledger of pipe endpoints during one sys::run call: the endpoints
created, the endpoints closed, the endpoints still owned by the pipe
wrapper objects, and the endpoints transferred out to the caller.
Modelled from the spec: the wrappers sys::file::pipe and
sys::win::pipe are declared in headers outside src/; per the spec
they fail atomically per pipe (both endpoints or neither), their
set()/open() members transfer one endpoint out to the caller, and on
scope exit their destructors release every endpoint still owned. -/
structure Ledger where
  opened : List PipeEnd
  closed : List PipeEnd
  owned : List PipeEnd
  handed : List PipeEnd
  deriving DecidableEq

/-- Ledger at entry to sys::run: nothing created. -/
def Ledger.empty : Ledger := ⟨[], [], [], []⟩

/-- Construction of pipe i (pipe(2) or CreatePipe): on success both
endpoints come into existence owned by the wrapper, on failure
neither. -/
def Ledger.alloc (L : Ledger) (i : Fin 3) (ok : Bool) : Ledger :=
  if ok then
    ⟨L.opened ++ [(i, false), (i, true)], L.closed,
      L.owned ++ [(i, false), (i, true)], L.handed⟩
  else L

/-- set()/open(): the wrapper transfers endpoint e out to the caller;
the destructor will no longer touch it. -/
def Ledger.release (L : Ledger) (e : PipeEnd) : Ledger :=
  ⟨L.opened, L.closed, L.owned.erase e, L.handed ++ [e]⟩

/-- Scope exit of sys::run: the wrapper destructors close every
endpoint still owned. -/
def Ledger.dtors (L : Ledger) : Ledger :=
  ⟨L.opened, L.closed ++ L.owned, [], L.handed⟩

/-- The ledger after constructing the array of three pipe wrappers at
the top of sys::run: pipe i exists iff its creation succeeded. -/
def pipes3 (p0 p1 p2 : Bool) : Ledger :=
  ((Ledger.empty.alloc 0 p0).alloc 1 p1).alloc 2 p2

/-! ## sys::run on the POSIX backend, parent side (src/main.cpp 404..457) -/

/-- Observable outcome of sys::run on the POSIX backend as seen in the
parent process: the returned pid_t, whether fork was reached, the
endpoint ledger at return, and whether this invocation is the child
continuation of the fork (pid 0), which exec elsewhere replaces. -/
structure PosixRunObs where
  result : Int
  forkCalled : Bool
  ledger : Ledger
  childPath : Bool
  deriving DecidableEq

/-- sys::run on the POSIX backend (src/main.cpp 404..457), parent-side
control flow: construct the three pipe wrappers, return invalid if any
failed (destructors close the rest), fork, on fork failure log and
return the failing pid (destructors close all six endpoints), and on
success transfer the parent-side ends — stdin write, stdout read,
stderr read — to the caller through set() and return the child pid
while the destructors close the three child-side ends. forkRes is the
value fork returned in this process: -1 failure, 0 the child copy,
positive the child pid. The child copy continues in child_setup and
child_exec below. -/
def run_posix (p0 p1 p2 : Bool) (forkRes : Int) : PosixRunObs :=
  if p0 = false ∨ p1 = false ∨ p2 = false then
    ⟨invalid, false, (pipes3 p0 p1 p2).dtors, false⟩
  else if forkRes = 0 then
    ⟨0, true, pipes3 p0 p1 p2, true⟩
  else if forkRes = invalid then
    ⟨invalid, true, (pipes3 p0 p1 p2).dtors, false⟩
  else
    ⟨forkRes, true,
      ((((pipes3 p0 p1 p2).release (0, true)).release (1, false)).release
        (2, false)).dtors,
      false⟩

/-! ## The Windows command-line flattening (src/main.cpp 358..365) -/

/-- Size of the char cmd buffer: MAX_PATH. -/
def MAX_PATH : Nat := 260

/-- Byte-wise store of a byte list into buf starting at off.
List.set leaves the list unchanged when the index is out of range;
every theorem below only exercises in-range stores, matching the
defined behavior of the C code. -/
def bufWrite (buf : List Nat) (off : Nat) : List Nat → List Nat
  | [] => buf
  | b :: bs => bufWrite (buf.set off b) (off + 1) bs

/-- Model of std::snprintf(buf + off, avail, fmt, s) for the format
used by the code, which renders s followed by one space byte 32: when
the call reports an encoding error (ok = false) the result is
negative and the buffer is unspecified (left unchanged here); when
avail is 0 nothing is stored; otherwise at most avail - 1 bytes of the
rendered text are stored at off followed by one terminating NUL, and
the return value is the full rendered length regardless of
truncation. -/
def snprintf_pct_s (ok : Bool) (buf : List Nat) (off avail : Nat)
    (s : List Nat) : List Nat × Int :=
  if ok = false then (buf, -1)
  else if avail = 0 then (buf, ((s.length + 1 : Nat) : Int))
  else
    let text := s ++ [32]
    let stored := text.take (avail - 1)
    ((bufWrite buf off stored).set (off + stored.length) 0,
      ((text.length : Nat) : Int))

/-- The flattening loop of sys::run on the Windows backend
(src/main.cpp 360..365): for each argv element, snprintf it at offset
j with avail = MAX_PATH - j; on a nonpositive return, return failure;
otherwise advance j by the return value (j += n in the body) and then
by one more (the ++j in the loop head), which steps past the NUL the
call just stored. fmtOk says which calls report an error; i is the
element index, j the offset. -/
def cmd_loop (fmtOk : Nat → Bool) :
    List (List Nat) → Nat → Nat → List Nat → Option (List Nat)
  | [], _, _, buf => some buf
  | s :: rest, i, j, buf =>
    let r := snprintf_pct_s (fmtOk i) buf j (MAX_PATH - j) s
    if 0 < r.2 then cmd_loop fmtOk rest (i + 1) (j + r.2.toNat + 1) r.1
    else none

/-- The cmd buffer sys::run on the Windows backend hands to
CreateProcess: a MAX_PATH buffer zeroed by ZeroMemory, then filled by
the flattening loop; none when the loop failed and run returned -1. -/
def win_cmd (fmtOk : Nat → Bool) (argv : List (List Nat)) :
    Option (List Nat) :=
  cmd_loop fmtOk argv 0 0 (List.replicate MAX_PATH 0)

/-- Bytes of a buffer up to the first NUL: what a NUL-terminated
C string argument, such as the CreateProcess command line, denotes. -/
def cstring (buf : List Nat) : List Nat := buf.takeWhile (fun b => b != 0)

/-! ## sys::run on the Windows backend (src/main.cpp 338..403) -/

/-- Events of one Windows sys::run call, in program order: marking one
pipe end non-inheritable via SetHandleInformation (with the pipe
index, which end, and whether the call succeeded), and the
CreateProcess call (with its success). -/
inductive WinEv where
  | mark (n : Fin 3) (isWrite : Bool) (ok : Bool)
  | create (ok : Bool)
  deriving DecidableEq

/-- Observable outcome of sys::run on the Windows backend: the
returned value, the event list in program order, and the endpoint
ledger at return. -/
structure WinRunObs where
  result : Int
  events : List WinEv
  ledger : Ledger
  deriving DecidableEq

/-- sys::run on the Windows backend (src/main.cpp 338..403): for each
pipe n in order, fail with -1 if the pipe was not created, else mark
its parent-retained end — the write end for stdin (n = 0), the read
ends for stdout and stderr — non-inheritable, failing with
sys::invalid if SetHandleInformation fails; then flatten argv into the
cmd buffer, failing with -1 if a snprintf call errors; then
CreateProcess, failing with sys::invalid if it fails; on success close
the thread handle, convert the three parent-side ends to descriptors
for the caller, and return the new process id. On every return path
the pipe wrapper destructors close whatever they still own. -/
def run_win (p0 p1 p2 s0 s1 s2 : Bool) (fmtOk : Nat → Bool)
    (argv : List (List Nat)) (createOk : Bool) (newPid : Nat) : WinRunObs :=
  if p0 = false then ⟨-1, [], (pipes3 p0 p1 p2).dtors⟩
  else if s0 = false then
    ⟨invalid, [WinEv.mark 0 true false], (pipes3 p0 p1 p2).dtors⟩
  else if p1 = false then
    ⟨-1, [WinEv.mark 0 true true], (pipes3 p0 p1 p2).dtors⟩
  else if s1 = false then
    ⟨invalid, [WinEv.mark 0 true true, WinEv.mark 1 false false],
      (pipes3 p0 p1 p2).dtors⟩
  else if p2 = false then
    ⟨-1, [WinEv.mark 0 true true, WinEv.mark 1 false true],
      (pipes3 p0 p1 p2).dtors⟩
  else if s2 = false then
    ⟨invalid,
      [WinEv.mark 0 true true, WinEv.mark 1 false true,
        WinEv.mark 2 false false], (pipes3 p0 p1 p2).dtors⟩
  else
    match win_cmd fmtOk argv with
    | none =>
      ⟨-1, [WinEv.mark 0 true true, WinEv.mark 1 false true,
        WinEv.mark 2 false true], (pipes3 p0 p1 p2).dtors⟩
    | some _ =>
      if createOk = false then
        ⟨invalid, [WinEv.mark 0 true true, WinEv.mark 1 false true,
          WinEv.mark 2 false true, WinEv.create false],
          (pipes3 p0 p1 p2).dtors⟩
      else
        ⟨(newPid : Int), [WinEv.mark 0 true true, WinEv.mark 1 false true,
          WinEv.mark 2 false true, WinEv.create true],
          ((((pipes3 p0 p1 p2).release (0, true)).release (1, false)).release
            (2, false)).dtors⟩

/-! ## The child continuation of sys::run on POSIX (src/main.cpp 430..456) -/

/-- What a child-side descriptor number can designate: an inherited
standard stream slot, or the read or write end of pipe i. -/
inductive Chan where
  | std (n : Nat)
  | rEnd (i : Fin 3)
  | wEnd (i : Fin 3)
  deriving DecidableEq

/-- The child descriptor table: which channel each descriptor number
currently designates; none means closed or never opened. -/
def FdTable : Type := Nat → Option Chan

/-- Child descriptor table right after fork: descriptors 0, 1, 2 are
the inherited standard streams, and the six pipe descriptors rj/wj
(the read and write ends of pipe j, as pipe(2) returned them in the
parent) are open. The theorems assume the pipe descriptors are
pairwise distinct and at least 3, which the OS guarantees while
descriptors 0, 1, 2 are occupied. -/
def initTable (r0 w0 r1 w1 r2 w2 : Nat) : FdTable := fun n =>
  if n = r0 then some (Chan.rEnd 0)
  else if n = w0 then some (Chan.wEnd 0)
  else if n = r1 then some (Chan.rEnd 1)
  else if n = w1 then some (Chan.wEnd 1)
  else if n = r2 then some (Chan.rEnd 2)
  else if n = w2 then some (Chan.wEnd 2)
  else if n ≤ 2 then some (Chan.std n)
  else none

/-- close(k): fails (EBADF) when k is not open, else removes it. -/
def fdClose (T : FdTable) (k : Nat) : Option FdTable :=
  match T k with
  | none => none
  | some _ => some (Function.update T k none)

/-- dup2(k, i): fails when k is not open, else makes i designate what
k designates. -/
def fdDup2 (T : FdTable) (k i : Nat) : Option FdTable :=
  match T k with
  | none => none
  | some c => some (Function.update T i (some c))

/-- One iteration of the redirection loop in the child
(src/main.cpp 430..448) for pipe i with designated end k (the read
end for stdin, the write ends for stdout and stderr), and original
pipe descriptors r and w: close(i), dup2(k, i) — exiting with
EXIT_FAILURE if either fails — then close both original descriptors
of pipe i through set(), exiting with EXIT_FAILURE if a close
fails. -/
def child_redirect (T : FdTable) (i k r w : Nat) : Option FdTable :=
  (fdClose T i).bind fun T1 =>
  (fdDup2 T1 k i).bind fun T2 =>
  (fdClose T2 r).bind fun T3 =>
  fdClose T3 w

/-- The full redirection loop of the child, the for loop over the
literal list 0, 1, 2 unrolled: pipe 0 designates its read end for
descriptor 0, pipes 1 and 2 designate their write ends for
descriptors 1 and 2. none means the child exited early with
EXIT_FAILURE. -/
def child_setup (r0 w0 r1 w1 r2 w2 : Nat) : Option FdTable :=
  (child_redirect (initTable r0 w0 r1 w1 r2 w2) 0 r0 r0 w0).bind fun TA =>
  (child_redirect TA 1 w1 r1 w1).bind fun TB =>
  child_redirect TB 2 w2 r2 w2

/-- How the child continuation ends: replaced by the target program
via execvp (with the program, the argument vector, and the descriptor
table at that moment), or terminated by an exit call. There is no
constructor for returning into parent-side code: the child address
space either execs or exits. -/
inductive ChildResult where
  | execed (prog : List Nat) (args : List (List Nat)) (table : FdTable)
  | exited (code : Int)

/-- The exec performed, if any: target program and argument vector. -/
def ChildResult.execCall : ChildResult → Option (List Nat × List (List Nat))
  | .execed p a _ => some (p, a)
  | .exited _ => none

/-- The exit status produced, if the child exited instead of
execing. -/
def ChildResult.exitCode : ChildResult → Option Int
  | .execed _ _ _ => none
  | .exited c => some c

/-- The child continuation of sys::run on the POSIX backend
(src/main.cpp 430..456): run the redirection loop, exiting with
EXIT_FAILURE = 1 on any failure; then copy argv into the args vector
and execvp(args.front(), args.data()). When exec fails, execvp
returns -1 and the child calls std::exit(-1) at once — no parent-side
code runs — which the OS reports as exit status (-1) mod 256 = 255. -/
def child_exec (r0 w0 r1 w1 r2 w2 : Nat) (argv : List (List Nat))
    (execOk : Bool) : ChildResult :=
  match child_setup r0 w0 r1 w1 r2 w2 with
  | none => ChildResult.exited 1
  | some T =>
    if execOk then ChildResult.execed (argv.headD []) argv T
    else ChildResult.exited (Int.emod (-1) 256)

/-- Running the destructors on a freshly constructed pipe array closes
exactly the endpoints that were created: nothing was released or
closed in between. -/
lemma pipes3_dtors_atomic (p0 p1 p2 : Bool) :
    (pipes3 p0 p1 p2).dtors.closed = (pipes3 p0 p1 p2).dtors.opened := by
  cases p0 <;> cases p1 <;> cases p2 <;> decide

/-! ## Claims C1 and C8: what the decode hands to the caller -/

/-- C1 counterexample: the three decoded cases are conflated at the
interface. A status for a normal exit with code 15 and a status for
termination by signal 15 are decoded to the same plain integer 15, so
the caller cannot tell ExitedNormally(15) from TerminatedBySignal(15);
wait_decode does not return a tagged variant. -/
theorem C1_counterexample :
    wait_decode ⟨true, 15, false, 0, false, 0, 3840⟩ =
      wait_decode ⟨false, 0, false, 0, true, 15, 15⟩ ∧
    (⟨true, 15, false, 0, false, 0, 3840⟩ : WaitStatus).ifexited = true ∧
    (⟨false, 0, false, 0, true, 15, 15⟩ : WaitStatus).ifexited = false ∧
    (⟨false, 0, false, 0, true, 15, 15⟩ : WaitStatus).ifsignaled = true := by
  decide

/-- C1 amended: sys::wait does decode the raw status once, testing
exited, then stopped, then signaled, and extracts the matching payload
(exit code, stop signal, termination signal respectively); but all
three are returned as one plain integer, not as distinguishable tagged
cases, so payload-equal cases coincide at the interface. -/
theorem C1_decode_branches (s : WaitStatus) :
    (s.ifexited = true → wait_decode s = s.exitstatus) ∧
    (s.ifexited = false → s.ifstopped = true → wait_decode s = s.stopsig) ∧
    (s.ifexited = false → s.ifstopped = false → s.ifsignaled = true →
      wait_decode s = s.termsig) := by
  refine ⟨fun h1 => ?_, fun h1 h2 => ?_, fun h1 h2 h3 => ?_⟩
  · simp [wait_decode, h1]
  · simp [wait_decode, h1, h2]
  · simp [wait_decode, h1, h2, h3]

/-- C1 witness: the three decode branches evaluated at concrete
status values. -/
theorem C1_witness :
    wait_decode ⟨true, 7, false, 0, false, 0, 1792⟩ = 7 ∧
    wait_decode ⟨false, 0, true, 19, false, 0, 4991⟩ = 19 ∧
    wait_decode ⟨false, 0, false, 0, true, 9, 9⟩ = 9 :=
  ⟨(C1_decode_branches ⟨true, 7, false, 0, false, 0, 1792⟩).1 rfl,
   (C1_decode_branches ⟨false, 0, true, 19, false, 0, 4991⟩).2.1 rfl rfl,
   (C1_decode_branches ⟨false, 0, false, 0, true, 9, 9⟩).2.2 rfl rfl rfl⟩

/-- C8 counterexample: a raw status that is none of the expected
shapes (not exited, not stopped, not signaled) decodes to the raw
integer itself, which coincides with the decode of a normal exit with
code 7 — so the anomalous case is not surfaced as an outcome
distinguishable from every ExitedNormally outcome. -/
theorem C8_counterexample :
    wait_decode ⟨false, 0, false, 0, false, 0, 7⟩ =
      wait_decode ⟨true, 7, false, 0, false, 0, 1792⟩ ∧
    (⟨false, 0, false, 0, false, 0, 7⟩ : WaitStatus).ifexited = false ∧
    (⟨false, 0, false, 0, false, 0, 7⟩ : WaitStatus).ifstopped = false ∧
    (⟨false, 0, false, 0, false, 0, 7⟩ : WaitStatus).ifsignaled = false ∧
    (⟨true, 7, false, 0, false, 0, 1792⟩ : WaitStatus).ifexited = true := by
  decide

/-- C8 amended: when the raw status matches none of the expected
shapes, sys::wait silently returns the raw platform status integer
itself (the fallback the source marks unreachable), with no distinct
anomaly tag. -/
theorem C8_anomalous_status_returns_raw (s : WaitStatus)
    (h1 : s.ifexited = false) (h2 : s.ifstopped = false)
    (h3 : s.ifsignaled = false) : wait_decode s = s.raw := by
  simp [wait_decode, h1, h2, h3]

/-- C8 witness: the fallback branch evaluated at a concrete anomalous
status. -/
theorem C8_witness : wait_decode ⟨false, 0, false, 0, false, 0, 42⟩ = 42 :=
  C8_anomalous_status_returns_raw ⟨false, 0, false, 0, false, 0, 42⟩ rfl rfl rfl

/-! ## Claim C3: the waitpid retry loop -/

/-- C3 counterexample: the loop retries after a waitpid failure that
is not a transient interruption. With a trace whose first call fails
with errno ECHILD (not EINTR), the loop still performs a second
waitpid call (call count 2) instead of stopping after the first. -/
theorem C3_counterexample :
    wait_loop 42
        (⟨-1, ⟨false, 0, false, 0, false, 0, 0⟩, ECHILD⟩ ::
          ⟨42, ⟨true, 7, false, 0, false, 0, 1792⟩, 0⟩ :: []) =
      some (⟨true, 7, false, 0, false, 0, 1792⟩, 2) ∧
    ECHILD ≠ EINTR ∧
    (⟨-1, ⟨false, 0, false, 0, false, 0, 0⟩, ECHILD⟩ : WaitCall).ret ≠ 42 := by
  decide

/-- C3 amended: the loop keeps calling waitpid on the requested child
until the returned identifier equals the requested one, retrying on
every non-matching return — failures included, with no inspection of
errno — and terminates with the status of the first matching return;
on a trace with no matching return it never terminates. -/
theorem C3_retries_until_pid_matches (parent : Int) (pre post : List WaitCall)
    (m : WaitCall) (hpre : ∀ c ∈ pre, c.ret ≠ parent) (hm : m.ret = parent) :
    wait_loop parent (pre ++ m :: post) = some (m.status, pre.length + 1) ∧
    (∀ t : List WaitCall, (∀ c ∈ t, c.ret ≠ parent) → wait_loop parent t = none) := by
  constructor
  · induction pre with
    | nil => simp [wait_loop, hm]
    | cons c t ih =>
      have hc : c.ret ≠ parent := hpre c (by simp)
      have ht : ∀ x ∈ t, x.ret ≠ parent := fun x hx => hpre x (by simp [hx])
      simp only [List.cons_append, wait_loop, if_neg hc, List.append_eq]
      rw [ih ht]
      simp
  · intro t ht
    induction t with
    | nil => rfl
    | cons c tl ih =>
      have hc : c.ret ≠ parent := ht c (by simp)
      have htl : ∀ x ∈ tl, x.ret ≠ parent := fun x hx => ht x (by simp [hx])
      simp [wait_loop, if_neg hc, ih htl]

/-- C3 witness: the amended loop behavior evaluated on a concrete
trace with one failing call before the matching one. -/
theorem C3_witness :
    wait_loop 5
        (⟨-1, ⟨false, 0, false, 0, false, 0, 0⟩, EINTR⟩ ::
          ⟨5, ⟨true, 0, false, 0, false, 0, 0⟩, 0⟩ :: []) =
      some (⟨true, 0, false, 0, false, 0, 0⟩, 2) :=
  (C3_retries_until_pid_matches 5 [⟨-1, ⟨false, 0, false, 0, false, 0, 0⟩, EINTR⟩]
    [] ⟨5, ⟨true, 0, false, 0, false, 0, 0⟩, 0⟩ (by decide) rfl).1

/-- C4 counterexample: kill and quit do not hand the caller any
Result value. On a pid whose process cannot be signaled the value
returned to the caller is identical to the one returned on a
successful delivery (both are the unit value of a void function), so
no SignalError is returned; the failure appears only in the log. -/
theorem C4_counterexample :
    (kill (fun _ _ => false) 77).ret = (kill (fun _ _ => true) 77).ret ∧
    (kill (fun _ _ => false) 77).logs ≠ [] ∧
    (kill (fun _ _ => true) 77).logs = [] ∧
    (quit (fun _ _ => false) 77).ret = (quit (fun _ _ => true) 77).ret ∧
    (quit (fun _ _ => false) 77).logs ≠ [] := by
  decide

/-- C4 amended: kill and quit are void functions; a handle whose
process cannot be signaled (already exited, invalid identifier) makes
them log one diagnostic and return normally — the same unit value a
successful call returns, with no crash or abort — so failure is
reported through the log, never as a returned value. -/
theorem C4_signal_failure_logged_not_returned (env : SigEnv) (pid : Int)
    (hterm : env pid SIGTERM = false) (hint : env pid SIGINT = false) :
    (kill env pid).logs = [LogMsg.errSigterm] ∧
    (kill env pid).sent = [(pid, SIGTERM)] ∧
    (kill env pid).ret = (kill (fun _ _ => true) pid).ret ∧
    (quit env pid).logs = [LogMsg.errSigint] ∧
    (quit env pid).sent = [(pid, SIGINT)] ∧
    (quit env pid).ret = (quit (fun _ _ => true) pid).ret := by
  refine ⟨?_, rfl, rfl, ?_, rfl, rfl⟩
  · simp [kill, hterm]
  · simp [quit, hint]

/-- C4 witness: the amended statement evaluated at a concrete pid and
an environment in which the process is already gone. -/
theorem C4_witness :
    (kill (fun _ _ => false) 9001).logs = [LogMsg.errSigterm] ∧
    (kill (fun _ _ => false) 9001).sent = [(9001, SIGTERM)] ∧
    (kill (fun _ _ => false) 9001).ret = (kill (fun _ _ => true) 9001).ret ∧
    (quit (fun _ _ => false) 9001).logs = [LogMsg.errSigint] ∧
    (quit (fun _ _ => false) 9001).sent = [(9001, SIGINT)] ∧
    (quit (fun _ _ => false) 9001).ret = (quit (fun _ _ => true) 9001).ret :=
  C4_signal_failure_logged_not_returned (fun _ _ => false) 9001 rfl rfl

/-- C7: the platform action of each operation. kill delivers SIGTERM
on POSIX; quit delivers SIGINT on POSIX; kill on the handle-based
backend requests immediate termination with the fixed exit code 0
whenever the handle opens; and the kill and quit signals are distinct,
so the two operations are never the same action. -/
theorem C7_signal_actions (env : SigEnv) (we : WinSigEnv) (pid : Int) :
    (kill env pid).sent = [(pid, SIGTERM)] ∧
    (quit env pid).sent = [(pid, SIGINT)] ∧
    (we.openOk = true → (win_kill we pid).terminated = [(pid, 0)]) ∧
    SIGTERM ≠ SIGINT := by
  refine ⟨rfl, rfl, fun hopen => ?_, by decide⟩
  cases h : we.termOk <;> simp [win_kill, hopen, h]

/-- C7 witness: the signal actions evaluated at a concrete pid with a
live process. -/
theorem C7_witness :
    (kill (fun _ _ => true) 12).sent = [(12, SIGTERM)] ∧
    (quit (fun _ _ => true) 12).sent = [(12, SIGINT)] ∧
    (win_kill ⟨true, true⟩ 12).terminated = [(12, 0)] ∧
    SIGTERM ≠ SIGINT :=
  have h := C7_signal_actions (fun _ _ => true) ⟨true, true⟩ 12
  ⟨h.1, h.2.1, h.2.2.1 rfl, h.2.2.2⟩

/-- C10: when the process handle cannot be opened from the stored pid
(stale identifier), sys::wait on the Windows backend returns at once —
the blocking wait is never reached — with the int cast of the invalid
sentinel, -1; and that return value is identical to the one produced
by a genuine exit whose reported DWORD exit code casts to -1, so the
two are indistinguishable at the interface. -/
theorem C10_stale_handle_returns_invalid (e : WinWaitEnv)
    (hopen : e.openOk = false) :
    (win_wait e).result = -1 ∧
    (win_wait e).waited = false ∧
    (win_wait e).result = (win_wait ⟨true, true, true, 2 ^ 32 - 1⟩).result := by
  have hval : dwordToInt (intToDword invalid) = -1 := by decide
  have hgen : (win_wait ⟨true, true, true, 2 ^ 32 - 1⟩).result = -1 := by decide
  have hd : dwordToInt 4294967295 = -1 := by decide
  simp [win_wait, hopen, hval, hgen, hd]

/-- C10 witness: a concrete stale-handle environment. -/
theorem C10_witness :
    (win_wait ⟨false, true, true, 0⟩).result = -1 ∧
    (win_wait ⟨false, true, true, 0⟩).waited = false ∧
    (win_wait ⟨false, true, true, 0⟩).result =
      (win_wait ⟨true, true, true, 2 ^ 32 - 1⟩).result :=
  C10_stale_handle_returns_invalid ⟨false, true, true, 0⟩ rfl


/-! ## Claims C2, C6 and C9 about sys::run -/

/-- C2: spawn fails atomically on both backends. POSIX: when any pipe
fails to allocate, run returns invalid with fork never called and
every created endpoint closed; when fork fails after the pipes exist,
run returns invalid with all six endpoints closed. Windows: on every
failing path — missing pipe, failed non-inheritable marking, failed
command formatting, failed CreateProcess — run returns -1 with every
created endpoint closed, and when a pipe allocation failed no
CreateProcess call is ever made. -/
theorem C2_spawn_failure_closes_all_endpoints :
    (∀ (p0 p1 p2 : Bool) (forkRes : Int),
      ((p0 = false ∨ p1 = false ∨ p2 = false) →
        (run_posix p0 p1 p2 forkRes).ledger.closed =
          (run_posix p0 p1 p2 forkRes).ledger.opened ∧
        (run_posix p0 p1 p2 forkRes).forkCalled = false ∧
        (run_posix p0 p1 p2 forkRes).result = -1) ∧
      (p0 = true → p1 = true → p2 = true → forkRes = -1 →
        (run_posix p0 p1 p2 forkRes).ledger.closed =
          (run_posix p0 p1 p2 forkRes).ledger.opened ∧
        (run_posix p0 p1 p2 forkRes).result = -1)) ∧
    (∀ (p0 p1 p2 s0 s1 s2 : Bool) (fmtOk : Nat → Bool)
        (argv : List (List Nat)) (createOk : Bool) (newPid : Nat),
      ((p0 = false ∨ s0 = false ∨ p1 = false ∨ s1 = false ∨ p2 = false ∨
          s2 = false ∨ win_cmd fmtOk argv = none ∨ createOk = false) →
        (run_win p0 p1 p2 s0 s1 s2 fmtOk argv createOk newPid).ledger.closed =
          (run_win p0 p1 p2 s0 s1 s2 fmtOk argv createOk newPid).ledger.opened ∧
        (run_win p0 p1 p2 s0 s1 s2 fmtOk argv createOk newPid).result = -1) ∧
      ((p0 = false ∨ p1 = false ∨ p2 = false) →
        ∀ b, WinEv.create b ∉
          (run_win p0 p1 p2 s0 s1 s2 fmtOk argv createOk newPid).events)) := by
  constructor
  · intro p0 p1 p2 forkRes
    constructor
    · intro h
      simp only [run_posix, if_pos h]
      simp [pipes3_dtors_atomic, invalid]
    · intro h0 h1 h2 hf
      subst hf
      have hcond : ¬(p0 = false ∨ p1 = false ∨ p2 = false) := by
        simp [h0, h1, h2]
      simp only [run_posix, if_neg hcond]
      rw [if_neg (by decide : ¬((-1 : Int) = 0)),
        if_pos (by decide : ((-1 : Int) = invalid))]
      simp [pipes3_dtors_atomic, invalid]
  · intro p0 p1 p2 s0 s1 s2 fmtOk argv createOk newPid
    constructor
    · intro h
      cases p0 with
      | false => simp [run_win, invalid, pipes3_dtors_atomic]
      | true =>
      cases s0 with
      | false => simp [run_win, invalid, pipes3_dtors_atomic]
      | true =>
      cases p1 with
      | false => simp [run_win, invalid, pipes3_dtors_atomic]
      | true =>
      cases s1 with
      | false => simp [run_win, invalid, pipes3_dtors_atomic]
      | true =>
      cases p2 with
      | false => simp [run_win, invalid, pipes3_dtors_atomic]
      | true =>
      cases s2 with
      | false => simp [run_win, invalid, pipes3_dtors_atomic]
      | true =>
      cases hcmd : win_cmd fmtOk argv with
      | none => simp [run_win, invalid, pipes3_dtors_atomic, hcmd]
      | some buf =>
      cases createOk with
      | false => simp [run_win, invalid, pipes3_dtors_atomic, hcmd]
      | true => rcases h with h | h | h | h | h | h | h | h <;> simp_all
    · intro h b
      cases p0 with
      | false => simp [run_win]
      | true =>
      cases s0 with
      | false => simp [run_win]
      | true =>
      cases p1 with
      | false => simp [run_win]
      | true =>
      cases s1 with
      | false => simp [run_win]
      | true =>
      cases p2 with
      | false => simp [run_win]
      | true => rcases h with h | h | h <;> simp_all

/-- C2 witness: the atomic-failure accounting evaluated at concrete
environments — POSIX with the stdin pipe failing, POSIX with fork
failing, Windows with the stderr marking failing, and Windows with a
missing stdout pipe. -/
theorem C2_witness :
    ((run_posix false true true 7).ledger.closed =
        (run_posix false true true 7).ledger.opened ∧
      (run_posix false true true 7).forkCalled = false ∧
      (run_posix false true true 7).result = -1) ∧
    ((run_posix true true true (-1)).ledger.closed =
        (run_posix true true true (-1)).ledger.opened ∧
      (run_posix true true true (-1)).result = -1) ∧
    ((run_win true true true true true false (fun _ => true) [[97]] true
          5).ledger.closed =
        (run_win true true true true true false (fun _ => true) [[97]] true
          5).ledger.opened ∧
      (run_win true true true true true false (fun _ => true) [[97]] true
          5).result = -1) ∧
    (WinEv.create true ∉
      (run_win true false true true true true (fun _ => true) [[97]] true
        5).events) :=
  have h := C2_spawn_failure_closes_all_endpoints
  ⟨(h.1 false true true 7).1 (Or.inl rfl),
   (h.1 true true true (-1)).2 rfl rfl rfl rfl,
   (h.2 true true true true true false (fun _ => true) [[97]] true 5).1
     (Or.inr (Or.inr (Or.inr (Or.inr (Or.inr (Or.inl rfl)))))),
   (h.2 true false true true true true (fun _ => true) [[97]] true 5).2
     (Or.inr (Or.inl rfl)) true⟩

/-- C6: whenever CreateProcess is reached on the Windows backend, the
event list shows the three parent-retained pipe ends — the write end
of stdin, the read ends of stdout and stderr — each successfully
marked non-inheritable before the create event; and whenever a marking
fails, run returns -1 and no CreateProcess call appears at all. -/
theorem C6_parent_ends_marked_before_create (p0 p1 p2 s0 s1 s2 : Bool)
    (fmtOk : Nat → Bool) (argv : List (List Nat)) (createOk : Bool)
    (newPid : Nat) :
    ((∃ b, WinEv.create b ∈
        (run_win p0 p1 p2 s0 s1 s2 fmtOk argv createOk newPid).events) →
      (run_win p0 p1 p2 s0 s1 s2 fmtOk argv createOk newPid).events =
        [WinEv.mark 0 true true, WinEv.mark 1 false true,
          WinEv.mark 2 false true, WinEv.create createOk]) ∧
    (∀ n w, WinEv.mark n w false ∈
        (run_win p0 p1 p2 s0 s1 s2 fmtOk argv createOk newPid).events →
      (run_win p0 p1 p2 s0 s1 s2 fmtOk argv createOk newPid).result = -1 ∧
      ∀ b, WinEv.create b ∉
        (run_win p0 p1 p2 s0 s1 s2 fmtOk argv createOk newPid).events) := by
  constructor
  · intro h
    obtain ⟨b, hb⟩ := h
    cases p0 with
    | false => simp [run_win] at hb
    | true =>
    cases s0 with
    | false => simp [run_win] at hb
    | true =>
    cases p1 with
    | false => simp [run_win] at hb
    | true =>
    cases s1 with
    | false => simp [run_win] at hb
    | true =>
    cases p2 with
    | false => simp [run_win] at hb
    | true =>
    cases s2 with
    | false => simp [run_win] at hb
    | true =>
    cases hcmd : win_cmd fmtOk argv with
    | none => simp [run_win, hcmd] at hb
    | some buf =>
    cases createOk with
    | false => simp [run_win, hcmd]
    | true => simp [run_win, hcmd]
  · intro n w h
    cases p0 with
    | false => simp [run_win] at h
    | true =>
    cases s0 with
    | false => exact ⟨by simp [run_win, invalid], by simp [run_win]⟩
    | true =>
    cases p1 with
    | false => simp [run_win] at h
    | true =>
    cases s1 with
    | false => exact ⟨by simp [run_win, invalid], by simp [run_win]⟩
    | true =>
    cases p2 with
    | false => simp [run_win] at h
    | true =>
    cases s2 with
    | false => exact ⟨by simp [run_win, invalid], by simp [run_win]⟩
    | true =>
    cases hcmd : win_cmd fmtOk argv with
    | none => simp [run_win, hcmd] at h
    | some buf =>
    cases createOk with
    | false => simp [run_win, hcmd] at h
    | true => simp [run_win, hcmd] at h

/-- C6 witness: the marking discipline evaluated at concrete
environments — a fully successful run, and a run whose stdout-end
marking fails. -/
theorem C6_witness :
    (run_win true true true true true true (fun _ => true) [[97]] true
        5).events =
      [WinEv.mark 0 true true, WinEv.mark 1 false true,
        WinEv.mark 2 false true, WinEv.create true] ∧
    (run_win true true true true false true (fun _ => true) [[97]] true
        5).result = -1 :=
  ⟨(C6_parent_ends_marked_before_create true true true true true true
      (fun _ => true) [[97]] true 5).1 ⟨true, by decide⟩,
   ((C6_parent_ends_marked_before_create true true true true false true
      (fun _ => true) [[97]] true 5).2 1 false (by decide)).1⟩

/-- C9: evaluation of the flattening loop at the failing input
argv = [abc, def] (as bytes). Because j advances by the snprintf
return value plus one more in the loop head, the NUL the first call
stored at offset 4 survives in the buffer; every element is written,
def included (second conjunct shows the first ten buffer bytes), but
the NUL-terminated command line CreateProcess receives is abc followed
by one space — not the space-separated concatenation of all argv
elements, with or without a trailing space. -/
theorem C9_flatten_truncates_after_first_argument :
    (win_cmd (fun _ => true) [[97, 98, 99], [100, 101, 102]]).map cstring =
      some [97, 98, 99, 32] ∧
    (win_cmd (fun _ => true) [[97, 98, 99], [100, 101, 102]]).map
        (fun b => b.take 10) =
      some [97, 98, 99, 32, 0, 100, 101, 102, 32, 0] ∧
    ([97, 98, 99, 32] : List Nat) ≠ [97, 98, 99, 32, 100, 101, 102] ∧
    ([97, 98, 99, 32] : List Nat) ≠ [97, 98, 99, 32, 100, 101, 102, 32] := by
  decide

set_option maxHeartbeats 6400000 in
/-- C5: in the fork child, the redirection loop ends with descriptor 0
designating the read end of the stdin pipe, descriptor 1 the write end
of the stdout pipe, and descriptor 2 the write end of the stderr pipe,
every original pipe descriptor closed — the designated ones after
duplication, and all the others too; then the child execs the target
program, argv.front, with the caller's argument vector unchanged; and
when exec fails the child exits at once with status 255, a failure
status distinct from 0. The hypotheses say the six pipe descriptors
the OS handed out are pairwise distinct and do not collide with the
occupied standard descriptors 0, 1, 2. -/
theorem C5_child_redirects_then_execs (r0 w0 r1 w1 r2 w2 : Nat)
    (argv : List (List Nat))
    (h0 : 3 ≤ r0) (h1 : 3 ≤ w0) (h2 : 3 ≤ r1) (h3 : 3 ≤ w1)
    (h4 : 3 ≤ r2) (h5 : 3 ≤ w2)
    (d1 : r0 ≠ w0) (d2 : r0 ≠ r1) (d3 : r0 ≠ w1) (d4 : r0 ≠ r2)
    (d5 : r0 ≠ w2) (d6 : w0 ≠ r1) (d7 : w0 ≠ w1) (d8 : w0 ≠ r2)
    (d9 : w0 ≠ w2) (d10 : r1 ≠ w1) (d11 : r1 ≠ r2) (d12 : r1 ≠ w2)
    (d13 : w1 ≠ r2) (d14 : w1 ≠ w2) (d15 : r2 ≠ w2) :
    ((child_setup r0 w0 r1 w1 r2 w2).map fun T => (T 0, T 1, T 2)) =
      some (some (Chan.rEnd 0), some (Chan.wEnd 1), some (Chan.wEnd 2)) ∧
    ((child_setup r0 w0 r1 w1 r2 w2).map fun T =>
        (T r0, T w0, T r1, T w1, T r2, T w2)) =
      some (none, none, none, none, none, none) ∧
    (child_exec r0 w0 r1 w1 r2 w2 argv true).execCall =
      some (argv.headD [], argv) ∧
    (child_exec r0 w0 r1 w1 r2 w2 argv false).exitCode = some 255 ∧
    (255 : Int) ≠ 0 := by
  set T0 : FdTable := initTable r0 w0 r1 w1 r2 w2 with hT0
  set TA1 : FdTable := Function.update T0 0 none with hTA1
  set TA2 : FdTable := Function.update TA1 0 (some (Chan.rEnd 0)) with hTA2
  set TA3 : FdTable := Function.update TA2 r0 none with hTA3
  set TA4 : FdTable := Function.update TA3 w0 none with hTA4
  set TB1 : FdTable := Function.update TA4 1 none with hTB1
  set TB2 : FdTable := Function.update TB1 1 (some (Chan.wEnd 1)) with hTB2
  set TB3 : FdTable := Function.update TB2 r1 none with hTB3
  set TB4 : FdTable := Function.update TB3 w1 none with hTB4
  set TC1 : FdTable := Function.update TB4 2 none with hTC1
  set TC2 : FdTable := Function.update TC1 2 (some (Chan.wEnd 2)) with hTC2
  set TC3 : FdTable := Function.update TC2 r2 none with hTC3
  set F : FdTable := Function.update TC3 w2 none with hF
  have la1 : T0 0 = some (Chan.std 0) := by
    simp only [hT0, initTable]
    split_ifs <;> first | rfl | contradiction | omega
  have la2 : TA1 r0 = some (Chan.rEnd 0) := by
    simp only [hTA1, hT0, Function.update_apply, initTable]
    split_ifs <;> first | rfl | contradiction | omega
  have la3 : TA2 r0 = some (Chan.rEnd 0) := by
    simp only [hTA2, hTA1, hT0, Function.update_apply, initTable]
    split_ifs <;> first | rfl | contradiction | omega
  have la4 : TA3 w0 = some (Chan.wEnd 0) := by
    simp only [hTA3, hTA2, hTA1, hT0, Function.update_apply, initTable]
    split_ifs <;> first | rfl | contradiction | omega
  have lb1 : TA4 1 = some (Chan.std 1) := by
    simp only [hTA4, hTA3, hTA2, hTA1, hT0, Function.update_apply, initTable]
    split_ifs <;> first | rfl | contradiction | omega
  have lb2 : TB1 w1 = some (Chan.wEnd 1) := by
    simp only [hTB1, hTA4, hTA3, hTA2, hTA1, hT0, Function.update_apply,
      initTable]
    split_ifs <;> first | rfl | contradiction | omega
  have lb3 : TB2 r1 = some (Chan.rEnd 1) := by
    simp only [hTB2, hTB1, hTA4, hTA3, hTA2, hTA1, hT0, Function.update_apply,
      initTable]
    split_ifs <;> first | rfl | contradiction | omega
  have lb4 : TB3 w1 = some (Chan.wEnd 1) := by
    simp only [hTB3, hTB2, hTB1, hTA4, hTA3, hTA2, hTA1, hT0,
      Function.update_apply, initTable]
    split_ifs <;> first | rfl | contradiction | omega
  have lc1 : TB4 2 = some (Chan.std 2) := by
    simp only [hTB4, hTB3, hTB2, hTB1, hTA4, hTA3, hTA2, hTA1, hT0,
      Function.update_apply, initTable]
    split_ifs <;> first | rfl | contradiction | omega
  have lc2 : TC1 w2 = some (Chan.wEnd 2) := by
    simp only [hTC1, hTB4, hTB3, hTB2, hTB1, hTA4, hTA3, hTA2, hTA1, hT0,
      Function.update_apply, initTable]
    split_ifs <;> first | rfl | contradiction | omega
  have lc3 : TC2 r2 = some (Chan.rEnd 2) := by
    simp only [hTC2, hTC1, hTB4, hTB3, hTB2, hTB1, hTA4, hTA3, hTA2, hTA1,
      hT0, Function.update_apply, initTable]
    split_ifs <;> first | rfl | contradiction | omega
  have lc4 : TC3 w2 = some (Chan.wEnd 2) := by
    simp only [hTC3, hTC2, hTC1, hTB4, hTB3, hTB2, hTB1, hTA4, hTA3, hTA2,
      hTA1, hT0, Function.update_apply, initTable]
    split_ifs <;> first | rfl | contradiction | omega
  have hsetup : child_setup r0 w0 r1 w1 r2 w2 = some F := by
    rw [child_setup, ← hT0]
    rw [show child_redirect T0 0 r0 r0 w0 = some TA4 by
      simp only [child_redirect, fdClose, fdDup2, la1, la2, la3, la4,
        ← hTA1, ← hTA2, ← hTA3, ← hTA4, Option.bind]]
    rw [Option.bind]
    rw [show child_redirect TA4 1 w1 r1 w1 = some TB4 by
      simp only [child_redirect, fdClose, fdDup2, lb1, lb2, lb3, lb4,
        ← hTB1, ← hTB2, ← hTB3, ← hTB4, Option.bind]]
    rw [Option.bind]
    simp only [child_redirect, fdClose, fdDup2, lc1, lc2, lc3, lc4,
      ← hTC1, ← hTC2, ← hTC3, ← hF, Option.bind]
  have fF0 : F 0 = some (Chan.rEnd 0) := by
    simp only [hF, hTC3, hTC2, hTC1, hTB4, hTB3, hTB2, hTB1, hTA4, hTA3,
      hTA2, hTA1, hT0, Function.update_apply, initTable]
    split_ifs <;> first | rfl | contradiction | omega
  have fF1 : F 1 = some (Chan.wEnd 1) := by
    simp only [hF, hTC3, hTC2, hTC1, hTB4, hTB3, hTB2, hTB1, hTA4, hTA3,
      hTA2, hTA1, hT0, Function.update_apply, initTable]
    split_ifs <;> first | rfl | contradiction | omega
  have fF2 : F 2 = some (Chan.wEnd 2) := by
    simp only [hF, hTC3, hTC2, hTC1, hTB4, hTB3, hTB2, hTB1, hTA4, hTA3,
      hTA2, hTA1, hT0, Function.update_apply, initTable]
    split_ifs <;> first | rfl | contradiction | omega
  have fFr0 : F r0 = none := by
    simp only [hF, hTC3, hTC2, hTC1, hTB4, hTB3, hTB2, hTB1, hTA4, hTA3,
      hTA2, hTA1, hT0, Function.update_apply, initTable]
    split_ifs <;> first | rfl | contradiction | omega
  have fFw0 : F w0 = none := by
    simp only [hF, hTC3, hTC2, hTC1, hTB4, hTB3, hTB2, hTB1, hTA4, hTA3,
      hTA2, hTA1, hT0, Function.update_apply, initTable]
    split_ifs <;> first | rfl | contradiction | omega
  have fFr1 : F r1 = none := by
    simp only [hF, hTC3, hTC2, hTC1, hTB4, hTB3, hTB2, hTB1, hTA4, hTA3,
      hTA2, hTA1, hT0, Function.update_apply, initTable]
    split_ifs <;> first | rfl | contradiction | omega
  have fFw1 : F w1 = none := by
    simp only [hF, hTC3, hTC2, hTC1, hTB4, hTB3, hTB2, hTB1, hTA4, hTA3,
      hTA2, hTA1, hT0, Function.update_apply, initTable]
    split_ifs <;> first | rfl | contradiction | omega
  have fFr2 : F r2 = none := by
    simp only [hF, hTC3, hTC2, hTC1, hTB4, hTB3, hTB2, hTB1, hTA4, hTA3,
      hTA2, hTA1, hT0, Function.update_apply, initTable]
    split_ifs <;> first | rfl | contradiction | omega
  have fFw2 : F w2 = none := by
    simp only [hF, hTC3, hTC2, hTC1, hTB4, hTB3, hTB2, hTB1, hTA4, hTA3,
      hTA2, hTA1, hT0, Function.update_apply, initTable]
    split_ifs <;> first | rfl | contradiction | omega
  refine ⟨?_, ?_, ?_, ?_, by decide⟩
  · rw [hsetup]
    simp [fF0, fF1, fF2]
  · rw [hsetup]
    simp [fFr0, fFw0, fFr1, fFw1, fFr2, fFw2]
  · simp [child_exec, hsetup, ChildResult.execCall]
  · simp only [child_exec, hsetup]
    norm_num [ChildResult.exitCode]

/-- C5 witness: the child redirection evaluated at concrete pipe
descriptors 3..8 and the argument vector [ls]. -/
theorem C5_witness :
    ((child_setup 3 4 5 6 7 8).map fun T => (T 0, T 1, T 2)) =
      some (some (Chan.rEnd 0), some (Chan.wEnd 1), some (Chan.wEnd 2)) ∧
    ((child_setup 3 4 5 6 7 8).map fun T =>
        (T 3, T 4, T 5, T 6, T 7, T 8)) =
      some (none, none, none, none, none, none) ∧
    (child_exec 3 4 5 6 7 8 [[108, 115]] true).execCall =
      some ([108, 115], [[108, 115]]) ∧
    (child_exec 3 4 5 6 7 8 [[108, 115]] false).exitCode = some 255 ∧
    (255 : Int) ≠ 0 :=
  C5_child_redirects_then_execs 3 4 5 6 7 8 [[108, 115]]
    (by decide) (by decide) (by decide) (by decide) (by decide) (by decide)
    (by decide) (by decide) (by decide) (by decide) (by decide) (by decide)
    (by decide) (by decide) (by decide) (by decide) (by decide) (by decide)
    (by decide) (by decide) (by decide)

end Oasys
